import Mathlib

/-
Verification of the `resume-markdown` tool (src/resume_markdown/__main__.py)
against its specification.

Modelling conventions:
  * Text is modelled as `List Char`.  Python's `str.splitlines`,
    `str.strip`, `str.lstrip`, `re.match("^#[^#]", ...)` are embedded
    as executable Lean functions over `List Char`.
  * File-system state is modelled as `String → Option String`
    (path to contents); reads that may fail return `Option`.
  * Python exceptions are modelled with `Except`.
-/

deriving instance DecidableEq for Except

namespace ResumeMd

/-- Characters treated as line boundaries by Python `str.splitlines`
(ASCII and BMP boundaries; `\x5cr\x5cn` is handled as a single boundary
in `splitlinesAux`). -/
def isLineBreak (c : Char) : Bool :=
  c == '\n' || c == '\r' || c == '\x0b' || c == '\x0c' || c == '\x1c' ||
  c == '\x1d' || c == '\x1e' || c == '\x85' || c == '\u2028' || c == '\u2029'

/-- Worker for `splitlines`: accumulates the current line (reversed) and
splits at line boundaries, treating a carriage-return/newline pair as one
boundary.  A final line without a trailing boundary is kept; an empty
trailing fragment is not. -/
def splitlinesAux : List Char → List Char → List (List Char)
  | [], [] => []
  | [], acc => [acc.reverse]
  | '\r' :: '\n' :: rest, acc => acc.reverse :: splitlinesAux rest []
  | c :: rest, acc =>
    if isLineBreak c then acc.reverse :: splitlinesAux rest []
    else splitlinesAux rest (c :: acc)

/-- Embedding of Python `md.splitlines()` (source line 176). -/
def splitlines (md : List Char) : List (List Char) := splitlinesAux md []

/-- Embedding of `re.match("^#[^#]", line)` (source line 177): the line
starts with `#` and its second character exists and is not `#`. -/
def isH1 (l : List Char) : Bool :=
  match l with
  | a :: b :: _ => a == '#' && b != '#'
  | _ => false

/-- Embedding of `line.lstrip("#")` (source line 178): drop every leading
`#` character. -/
def lstripHash (l : List Char) : List Char :=
  l.dropWhile (fun c => c == '#')

/-- The characters for which Python `str.isspace()` holds — exactly the set
removed by `str.strip()`: the ASCII controls TAB through CR and U+001C-
U+001F, space, NEL, and the Unicode separator characters U+00A0, U+1680,
U+2000-U+200A, U+2028, U+2029, U+202F, U+205F, U+3000. -/
def pyIsSpace (c : Char) : Bool :=
 c == '\t' || c == '\n' || c == '\x0b' || c == '\x0c' || c == '\r' ||
  c == '\x1c' || c == '\x1d' || c == '\x1e' || c == '\x1f' || c == ' ' ||
  c == '\x85' || c == '\xa0' || c == '\u1680' || c == '\u2000' ||
  c == '\u2001' || c == '\u2002' || c == '\u2003' || c == '\u2004' ||
  c == '\u2005' || c == '\u2006' || c == '\u2007' || c == '\u2008' ||
  c == '\u2009' || c == '\u200a' || c == '\u2028' || c == '\u2029' ||
  c == '\u202f' || c == '\u205f' || c == '\u3000'

/-- Embedding of Python `str.strip()` (source line 178): remove leading and
trailing whitespace. -/
def pyStrip (l : List Char) : List Char :=
  ((l.dropWhile pyIsSpace).reverse.dropWhile pyIsSpace).reverse

/-- The exact error message raised by `title` (source lines 179-181). -/
def errNoTitle : List Char :=
  "Cannot find any lines that look like markdown h1 headings to use as the title".data

/-- The `for line in md.splitlines()` loop of `title` (source lines 176-181). -/
def titleLoop : List (List Char) → Except (List Char) (List Char)
  | [] => Except.error errNoTitle
  | l :: rest =>
    if isH1 l then Except.ok (pyStrip (lstripHash l)) else titleLoop rest

/-- Embedding of `title(md)` (source lines 171-181): the contents of the
first markdown h1 heading of `md`, or a `ValueError`. -/
def title (md : List Char) : Except (List Char) (List Char) :=
  titleLoop (splitlines md)

theorem titleLoop_find (ls : List (List Char)) (l : List Char)
    (h : ls.find? isH1 = some l) :
    titleLoop ls = Except.ok (pyStrip (lstripHash l)) := by
  induction ls with
  | nil => simp [List.find?] at h
  | cons a as ih =>
    by_cases ha : isH1 a = true
    · rw [List.find?_cons_of_pos _ ha] at h
      cases h
      simp [titleLoop, ha]
    · rw [List.find?_cons_of_neg _ ha] at h
      simp only [titleLoop, ha, if_false]
      exact ih h

theorem titleLoop_none (ls : List (List Char))
    (h : ∀ l ∈ ls, isH1 l = false) :
    titleLoop ls = Except.error errNoTitle := by
  induction ls with
  | nil => rfl
  | cons a as ih =>
    have ha := h a (List.mem_cons_self a as)
    simp only [titleLoop, ha, if_false]
    exact ih (fun l hl => h l (List.mem_cons_of_mem a hl))

theorem lstripHash_of_isH1 (l : List Char) (h : isH1 l = true) :
    lstripHash l = l.tail := by
  match l with
  | [] => simp [isH1] at h
  | [a] => simp [isH1] at h
  | a :: b :: r =>
    simp only [isH1, Bool.and_eq_true, beq_iff_eq, bne_iff_ne] at h
    obtain ⟨ha, hb⟩ := h
    subst ha
    have hb' : (b == '#') = false := by
      exact beq_eq_false_iff_ne.mpr hb
    simp [lstripHash, List.dropWhile, hb']

/-- C1: For every Markdown text that contains at least one line starting with
exactly one `#` followed by a non-`#` character, `title` returns the text of
the first such line (anywhere in the text) with the leading `#` removed and
surrounding whitespace trimmed; for every text with no such line, `title`
fails with the fatal no-heading input error. -/
theorem title_first_heading (md : List Char) :
    (∀ l, (splitlines md).find? isH1 = some l →
      title md = Except.ok (pyStrip l.tail)) ∧
    ((∀ l ∈ splitlines md, isH1 l = false) →
      title md = Except.error errNoTitle) := by
  constructor
  · intro l hl
    have hh : isH1 l = true := List.find?_some hl
    have := titleLoop_find (splitlines md) l hl
    rw [title, this, lstripHash_of_isH1 l hh]
  · intro h
    exact titleLoop_none (splitlines md) h

theorem title_first_heading_witness :
    title "junk\n# My Title \nrest".data = Except.ok "My Title".data ∧
    title "no heading here".data = Except.error errNoTitle := by
  constructor
  · have h := (title_first_heading "junk\n# My Title \nrest".data).1
      "# My Title ".data (by decide)
    rw [h]
    decide
  · exact (title_first_heading "no heading here".data).2 (by decide)

/-- C10: A line consisting of exactly the single character `#` is never
recognised as a heading (the match needs a non-`#` character after the `#`);
a document whose `#`-prefixed lines are all bare `#` fails title extraction,
while a heading with no space after the `#`, such as `#Title`, is accepted. -/
theorem bare_hash_not_heading :
    isH1 ['#'] = false ∧
    (∀ md : List Char,
      (∀ l ∈ splitlines md, l.head? = some '#' → l = ['#']) →
      title md = Except.error errNoTitle) ∧
    title "#Title".data = Except.ok "Title".data := by
  refine ⟨by decide, ?_, by decide⟩
  intro md h
  apply (title_first_heading md).2
  intro l hl
  match hls : l with
  | [] => rfl
  | a :: rest =>
    by_cases ha : a = '#'
    · subst ha
      have := h ('#' :: rest) hl (by rfl)
      cases this
      rfl
    · have ha' : (a == '#') = false := beq_eq_false_iff_ne.mpr ha
      match rest with
      | [] => rfl
      | b :: r => simp [isH1, ha']

theorem bare_hash_not_heading_witness :
    title "#\nx y\n#".data = Except.error errNoTitle :=
  (bare_hash_not_heading).2.1 "#\nx y\n#".data (by decide)

/-
The `preamble` template string (source lines 16-27) with its two `.format`
placeholders; `preambleFmt` below embeds `preamble.format(title=t, css=c)`.
The template is split at the placeholder positions.
-/

/-- Segment of the preamble template before the title placeholder. -/
def pre1 : List Char :=
  "<html lang=\"en\">\n<head>\n<meta charset=\"UTF-8\">\n<title>".data

/-- Segment of the preamble template between the title and css placeholders. -/
def pre2 : List Char := "</title>\n<style>\n".data

/-- Segment of the preamble template after the css placeholder. -/
def pre3 : List Char :=
  "\n</style>\n</head>\n<body>\n<div id=\"resume\">\n".data

/-- Embedding of `preamble.format(title=t, css=c)` (source lines 16-27, 198). -/
def preambleFmt (t c : List Char) : List Char :=
  pre1 ++ t ++ pre2 ++ c ++ pre3

/-- The `postamble` string (source lines 29-33). -/
def postamble : List Char := "</div>\n</body>\n</html>\n".data

/-- The opening tag of the single content container (end of the preamble
template, source line 26). -/
def containerOpen : List Char := "<div id=\"resume\">\n".data

/-- Embedding of the `try/except FileNotFoundError` CSS read of `make_html`
(source lines 190-195).  The input is the result of reading `<prefix>.css`
(`none` when the file does not exist); the output is the css text used and
whether the "not found, output will be unstyled" warning was printed. -/
def cssRead : Option (List Char) → List Char × Bool
  | some c => (c, false)
  | none => ([], true)

/-- Embedding of `make_html(md, prefix)` (source lines 184-202).
`render` stands for the external `markdown.markdown(…, extensions=["smarty",
"abbr"])` call, treated as an opaque collaborator; `cssFile` is the result
of reading `<prefix>.css`.  Returns the document and the warning flag, or
the `ValueError` propagated from `title`. -/
def makeHtml (render : List Char → List Char) (md : List Char)
    (cssFile : Option (List Char)) :
    Except (List Char) (List Char × Bool) :=
  match title md with
  | Except.error e => Except.error e
  | Except.ok t =>
    Except.ok (preambleFmt t (cssRead cssFile).1 ++ render md ++ postamble,
      (cssRead cssFile).2)

theorem pre1_split :
    pre1 = "<html lang=\"en\">\n<head>\n<meta charset=\"UTF-8\">\n".data ++
      "<title>".data := by decide

theorem pre2_split : pre2 = "</title>".data ++ "\n<style>\n".data := by decide

theorem pre3_split :
    pre3 = "\n</style>\n</head>\n<body>\n".data ++ containerOpen := by decide

/-- C2: For every Markdown input with a title line and every CSS read result
(present or absent), `make_html` produces exactly the preamble with the
extracted title and the css interpolated, followed by the rendered body,
followed by the postamble; consequently the output contains the title inside
a `<title>` element and wraps the body in the `<div id="resume">` container
closed by the postamble, whether or not a stylesheet was found. -/
theorem makeHtml_structure (render : List Char → List Char) (md : List Char)
    (cssFile : Option (List Char)) (t : List Char)
    (h : title md = Except.ok t) :
    (∀ c, cssFile = some c →
      makeHtml render md cssFile =
        Except.ok (preambleFmt t c ++ render md ++ postamble, false)) ∧
    (cssFile = none →
      makeHtml render md cssFile =
        Except.ok (preambleFmt t [] ++ render md ++ postamble, true)) ∧
    (∀ out w, makeHtml render md cssFile = Except.ok (out, w) →
      (∃ u v, out = u ++ ("<title>".data ++ t ++ "</title>".data) ++ v) ∧
      (∃ u, out = u ++ containerOpen ++ (render md ++ postamble))) := by
  refine ⟨?_, ?_, ?_⟩
  · intro c hc
    subst hc
    simp [makeHtml, cssRead, h]
  · intro hc
    subst hc
    simp [makeHtml, cssRead, h]
  · intro out w hout
    simp only [makeHtml, h] at hout
    obtain ⟨hout, -⟩ := Prod.mk.injEq .. ▸ (Except.ok.injEq .. ▸ hout)
    constructor
    · refine ⟨"<html lang=\"en\">\n<head>\n<meta charset=\"UTF-8\">\n".data,
        "\n<style>\n".data ++ (cssRead cssFile).1 ++ pre3 ++
          (render md ++ postamble), ?_⟩
      rw [← hout, preambleFmt, pre1_split, pre2_split]
      simp [List.append_assoc]
    · refine ⟨pre1 ++ t ++ pre2 ++ (cssRead cssFile).1 ++
        "\n</style>\n</head>\n<body>\n".data, ?_⟩
      rw [← hout, preambleFmt, pre3_split]
      simp [List.append_assoc]

theorem makeHtml_structure_witness :
    makeHtml (fun l => l) "# T".data (some "b".data) =
      Except.ok (preambleFmt "T".data "b".data ++ "# T".data ++ postamble,
        false) ∧
    makeHtml (fun l => l) "# T".data none =
      Except.ok (preambleFmt "T".data [] ++ "# T".data ++ postamble, true) := by
  constructor
  · exact (makeHtml_structure (fun l => l) "# T".data (some "b".data)
      "T".data (by decide)).1 "b".data rfl
  · exact (makeHtml_structure (fun l => l) "# T".data none
      "T".data (by decide)).2.1 rfl

/-- C3 counterexample: an input whose stylesheet is missing on which HTML
compilation nevertheless fails — the input has no h1 heading, so `make_html`
raises the title error even though the missing stylesheet itself was
tolerated.  This refutes "for every input whose stylesheet file does not
exist, HTML compilation does not raise … and succeeds". -/
theorem makeHtml_missing_css_cex :
    makeHtml (fun l => l) "hello".data none = Except.error errNoTitle := by
  decide

/-- C3 (amended): for every input that has a title line and whose stylesheet
file does not exist, HTML compilation does not raise: it substitutes an
empty stylesheet, emits the non-fatal unstyled warning, and succeeds,
producing a document with an empty style block. -/
theorem makeHtml_missing_css (render : List Char → List Char)
    (md t : List Char) (h : title md = Except.ok t) :
    makeHtml render md none =
      Except.ok (preambleFmt t [] ++ render md ++ postamble, true) ∧
    (∀ out w, makeHtml render md none = Except.ok (out, w) →
      w = true ∧ ∃ u v, out = u ++ "<style>\n\n</style>".data ++ v) := by
  constructor
  · simp [makeHtml, cssRead, h]
  · intro out w hout
    simp only [makeHtml, h, cssRead] at hout
    obtain ⟨hout, hw⟩ := Prod.mk.injEq .. ▸ (Except.ok.injEq .. ▸ hout)
    refine ⟨hw.symm, pre1 ++ t ++ "</title>\n".data,
      "\n</head>\n<body>\n".data ++ containerOpen ++
        (render md ++ postamble), ?_⟩
    have h2 : pre2 = "</title>\n".data ++ "<style>\n".data := by decide
    have h3 : pre3 = "\n</style>".data ++
        ("\n</head>\n<body>\n".data ++ containerOpen) := by decide
    have hs : "<style>\n".data ++ "\n</style>".data =
        "<style>\n\n</style>".data := by decide
    rw [← hout, preambleFmt, h2, h3, ← hs]
    simp [List.append_assoc]

theorem makeHtml_missing_css_witness :
    makeHtml (fun l => l) "# T".data none =
      Except.ok (preambleFmt "T".data [] ++ "# T".data ++ postamble, true) :=
  (makeHtml_missing_css (fun l => l) "# T".data "T".data (by decide)).1

/-
Browser Locator (source lines 35-168).  The platform branch of
`guess_browser_path` is modelled by `OsPlatform`; `os.path.expandvars` (used
at candidate-table construction, Windows only) and `glob.glob` (used by
`expand_wsl_paths`) are ambient-environment collaborators passed as
functions; `os.path.exists` is the filesystem-existence predicate.
-/

/-- `CHROME_GUESSES_MACOS` (source lines 35-39). -/
def CHROME_GUESSES_MACOS : List String :=
  ["/Applications/Chromium.app/Contents/MacOS/Chromium",
   "/Applications/Google Chrome Canary.app/Contents/MacOS/Google Chrome Canary",
   "/Applications/Google Chrome.app/Contents/MacOS/Google Chrome"]

/-- `EDGE_GUESSES_MACOS` (source lines 41-43). -/
def EDGE_GUESSES_MACOS : List String :=
  ["/Applications/Microsoft Edge.app/Contents/MacOS/Microsoft Edge"]

/-- `CHROME_GUESSES_WINDOWS` (source lines 46-58); `ev` embeds
`os.path.expandvars`. -/
def CHROME_GUESSES_WINDOWS (ev : String → String) : List String :=
  [ev "%ProgramFiles(x86)%\\Google\\Chrome\\Application\\chrome.exe",
   ev "%ProgramFiles%\\Google\\Chrome\\Application\\chrome.exe",
   ev "%LocalAppData%\\Google\\Chrome\\Application\\chrome.exe",
   "C:\\Program Files (x86)\\Google\\Chrome\\Application\\chrome.exe",
   "C:\\Program Files\\Google\\Chrome\\Application\\chrome.exe",
   "C:\\Users\\UserName\\AppDataLocal\\Google\\Chrome",
   "C:\\Documents and Settings\\UserName\\Local Settings\\Application Data\\Google\\Chrome"]

/-- `EDGE_GUESSES_WINDOWS` (source lines 60-65). -/
def EDGE_GUESSES_WINDOWS (ev : String → String) : List String :=
  [ev "%Program Files (x86)%\\Microsoft\\Edge\\Application\\msedge.exe",
   ev "%Program Files%\\Microsoft\\Edge\\Application\\msedge.exe",
   ev "%LocalAppData%\\Microsoft\\Edge\\Application\\msedge.exe"]

/-- The `"/".join((path, executable)) for path, executable in
itertools.product(dirs, exes)` comprehension (source lines 68-112). -/
def joinProduct (dirs exes : List String) : List String :=
  (dirs.map (fun d => exes.map (fun e => d ++ "/" ++ e))).flatten

/-- `CHROME_GUESSES_LINUX` (source lines 68-82). -/
def CHROME_GUESSES_LINUX : List String :=
  joinProduct
    ["/usr/local/sbin", "/usr/local/bin", "/usr/sbin", "/usr/bin", "/sbin",
     "/bin", "/opt/google/chrome"]
    ["google-chrome", "chrome", "chromium", "chromium-browser"]

/-- `EDGE_GUESSES_LINUX` (source lines 84-97). -/
def EDGE_GUESSES_LINUX : List String :=
  joinProduct
    ["/usr/local/sbin", "/usr/local/bin", "/usr/sbin", "/usr/bin", "/sbin",
     "/bin"]
    ["microsoft-edge", "edge"]

/-- `BRAVE_GUESSES_LINUX` (source lines 99-112). -/
def BRAVE_GUESSES_LINUX : List String :=
  joinProduct
    ["/usr/local/sbin", "/usr/local/bin", "/usr/sbin", "/usr/bin", "/sbin",
     "/bin"]
    ["brave-browser", "brave"]

/-- `EDGE_GUESSES_WSL` (source lines 115-119). -/
def EDGE_GUESSES_WSL : List String :=
  ["/mnt/c/Program Files (x86)/Microsoft/Edge/Application/msedge.exe",
   "/mnt/c/Program Files/Microsoft/Edge/Application/msedge.exe",
   "/mnt/c/Users/*/AppData/Local/Microsoft/Edge/Application/msedge.exe"]

/-- `CHROME_GUESSES_WSL` (source lines 121-125). -/
def CHROME_GUESSES_WSL : List String :=
  ["/mnt/c/Program Files (x86)/Google/Chrome/Application/chrome.exe",
   "/mnt/c/Program Files/Google/Chrome/Application/chrome.exe",
   "/mnt/c/Users/*/AppData/Local/Google/Chrome/Application/chrome.exe"]

/-- Embedding of `expand_wsl_paths` (source lines 137-147): paths containing
a `*` wildcard are replaced by their glob expansion, others kept as-is. -/
def expandWslPaths (glob : String → List String) (paths : List String) :
    List String :=
  (paths.map (fun p => if p.data.contains '*' then glob p else [p])).flatten

/-- The four platform branches selected by `guess_browser_path`
(source lines 152-161): `sys.platform == "darwin"`, `sys.platform ==
"win32"`, `is_wsl()`, and generic Linux. -/
inductive OsPlatform where
  | darwin : OsPlatform
  | win32 : OsPlatform
  | wsl : OsPlatform
  | linux : OsPlatform
deriving DecidableEq

/-- The platform-selected ordered candidate list of `guess_browser_path`
(source lines 152-161). -/
def platformGuesses (p : OsPlatform) (ev : String → String)
    (glob : String → List String) : List String :=
  match p with
  | OsPlatform.darwin => EDGE_GUESSES_MACOS ++ CHROME_GUESSES_MACOS
  | OsPlatform.win32 => EDGE_GUESSES_WINDOWS ev ++ CHROME_GUESSES_WINDOWS ev
  | OsPlatform.wsl =>
      BRAVE_GUESSES_LINUX ++ EDGE_GUESSES_LINUX ++ CHROME_GUESSES_LINUX ++
      expandWslPaths glob EDGE_GUESSES_WSL ++
      expandWslPaths glob CHROME_GUESSES_WSL
  | OsPlatform.linux => EDGE_GUESSES_LINUX ++ CHROME_GUESSES_LINUX

/-- The exact message of the `ValueError` raised when no browser is found
(source line 168). -/
def noBrowserMsg : String :=
  "Could not find Chrome, Chromium, or Edge. Please set --chrome-path."

/-- The `for guess in guesses: if os.path.exists(guess): return guess` loop
(source lines 163-168); `fs` embeds `os.path.exists`. -/
def firstExisting (fs : String → Bool) : List String → Except String String
  | [] => Except.error noBrowserMsg
  | g :: rest => if fs g then Except.ok g else firstExisting fs rest

/-- Embedding of `guess_browser_path()` (source lines 150-168). -/
def guessBrowserPath (fs : String → Bool) (p : OsPlatform)
    (ev : String → String) (glob : String → List String) :
    Except String String :=
  firstExisting fs (platformGuesses p ev glob)

theorem firstExisting_find (fs : String → Bool) (gs : List String)
    (g : String) (h : gs.find? fs = some g) :
    firstExisting fs gs = Except.ok g := by
  induction gs with
  | nil => simp [List.find?] at h
  | cons a as ih =>
    by_cases ha : fs a = true
    · rw [List.find?_cons_of_pos _ ha] at h
      cases h
      simp [firstExisting, ha]
    · rw [List.find?_cons_of_neg _ ha] at h
      simp only [firstExisting, ha, if_false]
      exact ih h

theorem firstExisting_none (fs : String → Bool) (gs : List String)
    (h : ∀ g ∈ gs, fs g = false) :
    firstExisting fs gs = Except.error noBrowserMsg := by
  induction gs with
  | nil => rfl
  | cons a as ih =>
    have ha := h a (List.mem_cons_self a as)
    simp only [firstExisting, ha, if_false]
    exact ih (fun g hg => h g (List.mem_cons_of_mem a hg))

theorem firstExisting_unique (fs : String → Bool) (gs : List String)
    (g : String) (hmem : g ∈ gs) (hex : fs g = true)
    (huniq : ∀ g' ∈ gs, fs g' = true → g' = g) :
    firstExisting fs gs = Except.ok g := by
  induction gs with
  | nil => cases hmem
  | cons a as ih =>
    by_cases ha : fs a = true
    · have : a = g := huniq a (List.mem_cons_self a as) ha
      subst this
      simp [firstExisting, ha]
    · simp only [firstExisting, ha, if_false]
      have hmem' : g ∈ as := by
        cases List.mem_cons.mp hmem with
        | inl h => exact absurd (h ▸ hex) (by simp [ha])
        | inr h => exact h
      exact ih hmem' (fun g' hg' => huniq g' (List.mem_cons_of_mem a hg'))

/-- C4: For every filesystem-existence predicate, the Browser Locator scans
the platform-selected ordered candidate list and returns the first candidate
that exists; if exactly one candidate exists it returns that candidate
regardless of its position; if none exists it fails with the distinct
no-browser-found error telling the user to set an explicit path. -/
theorem browser_locator (fs : String → Bool) (p : OsPlatform)
    (ev : String → String) (glob : String → List String) :
    (∀ g, (platformGuesses p ev glob).find? fs = some g →
      guessBrowserPath fs p ev glob = Except.ok g) ∧
    (∀ g, g ∈ platformGuesses p ev glob → fs g = true →
      (∀ g', g' ∈ platformGuesses p ev glob → fs g' = true → g' = g) →
      guessBrowserPath fs p ev glob = Except.ok g) ∧
    ((∀ g ∈ platformGuesses p ev glob, fs g = false) →
      guessBrowserPath fs p ev glob = Except.error noBrowserMsg) :=
  ⟨fun g h => firstExisting_find fs _ g h,
   fun g hmem hex huniq => firstExisting_unique fs _ g hmem hex huniq,
   fun h => firstExisting_none fs _ h⟩

theorem browser_locator_witness :
    guessBrowserPath (fun s => s == "/bin/chromium") OsPlatform.linux
      (fun s => s) (fun _ => []) = Except.ok "/bin/chromium" ∧
    guessBrowserPath (fun _ => false) OsPlatform.linux
      (fun s => s) (fun _ => []) = Except.error noBrowserMsg := by
  constructor
  · exact (browser_locator (fun s => s == "/bin/chromium") OsPlatform.linux
      (fun s => s) (fun _ => [])).2.1 "/bin/chromium" (by decide) (by decide)
      (by decide)
  · exact (browser_locator (fun _ => false) OsPlatform.linux
      (fun s => s) (fun _ => [])).2.2 (by decide)

/-
Browser-backed PDF renderer `write_pdf` (source lines 223-281).  The
subprocess outcome is its return code (an `Int`: negative values are the
abnormal-termination signal codes Python reports); `subprocess.run(...,
check=True)` raises `CalledProcessError` on any non-zero code.  `shutil.
rmtree(tmpdir, ignore_errors=True)` may or may not actually remove the
directory; whether it does is the environment flag `rmtreeRemoves`.
-/

/-- Environment of one `write_pdf` call: the `chrome` argument, the result
`guess_browser_path()` would give, the browser subprocess return code, and
whether the best-effort `rmtree` actually removes the temp directory. -/
structure PdfEnv where
  chromeArg : String
  locate : Except String String
  returncode : Int
  rmtreeRemoves : Bool

/-- Errors propagating out of `write_pdf`: the `ValueError` of
`guess_browser_path`, or a re-raised `subprocess.CalledProcessError`. -/
inductive PdfErr where
  | noBrowser : String → PdfErr
  | calledProcessError : Int → PdfErr
deriving DecidableEq

/-- Observable events of one `write_pdf` call. -/
structure PdfTrace where
  tmpdirCreated : Bool
  cleanupCalled : Bool
  tmpdirRemains : Bool
  warnedSigabrt : Bool
  loggedWrote : Bool
deriving DecidableEq

/-- Embedding of `chrome = chrome or guess_browser_path()` (source line
227): an empty `chrome` argument falls back to the locator. -/
def resolveChrome (env : PdfEnv) : Except String String :=
  if env.chromeArg = "" then env.locate else Except.ok env.chromeArg

/-- Embedding of `subprocess.run([...], check=True)` (source lines 260-268):
zero return code succeeds, any other raises `CalledProcessError`. -/
def subprocessRun (rc : Int) : Except Int Unit :=
  if rc = 0 then Except.ok () else Except.error rc

/-- The `try/except subprocess.CalledProcessError` block of `write_pdf`
(source lines 259-277): success logs "Wrote prefix.pdf"; a return code of
`-6` (`Signals.SIGABRT`) is downgraded to a warning; any other error is
re-raised.  Returns (result, warned-SIGABRT, logged-wrote). -/
def pdfTryBlock (rc : Int) : Except PdfErr Unit × Bool × Bool :=
  match subprocessRun rc with
  | Except.ok _ => (Except.ok (), false, true)
  | Except.error code =>
    if code = -6 then (Except.ok (), true, false)
    else (Except.error (PdfErr.calledProcessError code), false, false)

/-- Embedding of `write_pdf(html, prefix, chrome)` (source lines 223-281):
resolve the browser, create the scoped temp directory, run the subprocess
inside `try/except/finally`, and always attempt the best-effort cleanup
(`shutil.rmtree(tmpdir, ignore_errors=True)`, source lines 278-281). -/
def writePdf (env : PdfEnv) : Except PdfErr Unit × PdfTrace :=
  match resolveChrome env with
  | Except.error m =>
    (Except.error (PdfErr.noBrowser m), PdfTrace.mk false false false false false)
  | Except.ok _ =>
    let r := pdfTryBlock env.returncode
    (r.1, PdfTrace.mk true true (!env.rmtreeRemoves) r.2.1 r.2.2)

/-- C5: For every browser subprocess outcome in `write_pdf` (with the
browser path resolved): a zero exit code is success; an exit code equal to
the benign abort-signal value `-6` is downgraded to a warning and reported
as success; every other non-zero exit propagates as a fatal
`CalledProcessError`. -/
theorem writePdf_exit_policy (env : PdfEnv) (c : String)
    (h : resolveChrome env = Except.ok c) :
    (env.returncode = 0 →
      (writePdf env).1 = Except.ok () ∧
      (writePdf env).2.warnedSigabrt = false ∧
      (writePdf env).2.loggedWrote = true) ∧
    (env.returncode = -6 →
      (writePdf env).1 = Except.ok () ∧
      (writePdf env).2.warnedSigabrt = true) ∧
    (env.returncode ≠ 0 → env.returncode ≠ -6 →
      (writePdf env).1 =
        Except.error (PdfErr.calledProcessError env.returncode)) := by
  refine ⟨?_, ?_, ?_⟩
  · intro h0
    simp [writePdf, h, pdfTryBlock, subprocessRun, h0]
  · intro h6
    simp [writePdf, h, pdfTryBlock, subprocessRun, h6]
  · intro h0 h6
    simp [writePdf, h, pdfTryBlock, subprocessRun, h0, h6]

theorem writePdf_exit_policy_witness :
    (writePdf (PdfEnv.mk "chrome" (Except.error "") 0 true)).1 =
      Except.ok () ∧
    (writePdf (PdfEnv.mk "chrome" (Except.error "") (-6) true)).1 =
      Except.ok () ∧
    (writePdf (PdfEnv.mk "chrome" (Except.error "") (-6) true)).2.warnedSigabrt
      = true ∧
    (writePdf (PdfEnv.mk "chrome" (Except.error "") 5 true)).1 =
      Except.error (PdfErr.calledProcessError 5) := by
  refine ⟨?_, ?_, ?_, ?_⟩
  · exact ((writePdf_exit_policy (PdfEnv.mk "chrome" (Except.error "") 0 true)
      "chrome" rfl).1 rfl).1
  · exact ((writePdf_exit_policy
      (PdfEnv.mk "chrome" (Except.error "") (-6) true)
      "chrome" rfl).2.1 rfl).1
  · exact ((writePdf_exit_policy
      (PdfEnv.mk "chrome" (Except.error "") (-6) true)
      "chrome" rfl).2.1 rfl).2
  · exact (writePdf_exit_policy (PdfEnv.mk "chrome" (Except.error "") 5 true)
      "chrome" rfl).2.2 (by decide) (by decide)

/-- C6: For every `write_pdf` invocation that reaches the subprocess (the
browser path resolved), the scoped temp directory is created and the
best-effort cleanup is invoked on every exit path — success, benign abort,
and fatal subprocess error; when removal succeeds the directory is gone,
and a removal failure never changes the call's outcome (it is not raised as
an error). -/
theorem writePdf_cleanup (env : PdfEnv) (c : String)
    (h : resolveChrome env = Except.ok c) :
    (writePdf env).2.tmpdirCreated = true ∧
    (writePdf env).2.cleanupCalled = true ∧
    (env.rmtreeRemoves = true → (writePdf env).2.tmpdirRemains = false) ∧
    (∀ b, (writePdf
        (PdfEnv.mk env.chromeArg env.locate env.returncode b)).1 =
      (writePdf env).1) := by
  have h' : ∀ b, resolveChrome
      (PdfEnv.mk env.chromeArg env.locate env.returncode b) =
      Except.ok c := fun b => h
  refine ⟨?_, ?_, ?_, ?_⟩
  · simp [writePdf, h]
  · simp [writePdf, h]
  · intro hb
    simp [writePdf, h, hb]
  · intro b
    simp [writePdf, h, h' b]

theorem writePdf_cleanup_witness :
    (writePdf (PdfEnv.mk "" (Except.ok "/usr/bin/edge") (-6) true)).2.cleanupCalled
      = true ∧
    (writePdf (PdfEnv.mk "" (Except.ok "/usr/bin/edge") (-6) true)).2.tmpdirRemains
      = false := by
  constructor
  · exact (writePdf_cleanup (PdfEnv.mk "" (Except.ok "/usr/bin/edge") (-6) true)
      "/usr/bin/edge" rfl).2.1
  · exact (writePdf_cleanup (PdfEnv.mk "" (Except.ok "/usr/bin/edge") (-6) true)
      "/usr/bin/edge" rfl).2.2.1 rfl

/-
`init_resume` (source lines 205-220).  The filesystem is a map from path to
contents; `(package_files / filename).read_text()` is the template lookup
`tmpl`.
-/

/-- Filesystem snapshot: path to contents, `none` when the path does not
exist (`os.path.exists` is `(fs p).isSome`). -/
def FS : Type := String → Option String

/-- Point update of a filesystem: `open(dest, "w").write(content)`. -/
def fsWrite (fs : FS) (p c : String) : FS :=
  fun q => if q = p then some c else fs q

/-- Embedding of `os.path.join(directory, filename)` for POSIX paths
(source line 212). -/
def osPathJoin (a b : String) : String :=
  if b.data.take 1 = ['/'] then b
  else if a = "" ∨ a.data.getLast? = some '/' then a ++ b
  else a ++ "/" ++ b

/-- The two bundled template files written by `init_resume`
(source line 211). -/
def templateFilenames : List String := ["resume.md", "resume.css"]

/-- One iteration of the `for filename in [...]` loop of `init_resume`
(source lines 211-220): skip with a warning when the destination exists,
otherwise write the template content.  The accumulator carries the
filesystem and the warnings logged so far. -/
def initStep (tmpl : String → String) (dir : String)
    (acc : FS × List String) (name : String) : FS × List String :=
  match acc.1 (osPathJoin dir name) with
  | some _ =>
    (acc.1, acc.2 ++ [osPathJoin dir name ++ " already exists, skipping"])
  | none => (fsWrite acc.1 (osPathJoin dir name) (tmpl name), acc.2)

/-- Embedding of `init_resume(directory)` (source lines 205-220). -/
def initResume (tmpl : String → String) (dir : String) (fs : FS) :
    FS × List String :=
  templateFilenames.foldl (initStep tmpl dir) (fs, [])

theorem initStep_preserves (tmpl : String → String) (dir : String)
    (acc : FS × List String) (name p : String) (c : String)
    (h : acc.1 p = some c) : (initStep tmpl dir acc name).1 p = some c := by
  cases hd : acc.1 (osPathJoin dir name) with
  | some _ =>
    unfold initStep
    rw [hd]
    exact h
  | none =>
    unfold initStep
    rw [hd]
    show fsWrite acc.1 (osPathJoin dir name) (tmpl name) p = some c
    unfold fsWrite
    by_cases hp : p = osPathJoin dir name
    · rw [hp] at h
      rw [h] at hd
      cases hd
    · rw [if_neg hp]
      exact h

theorem initStep_makes_exist (tmpl : String → String) (dir : String)
    (acc : FS × List String) (name : String) :
    ∃ c, (initStep tmpl dir acc name).1 (osPathJoin dir name) = some c := by
  cases hd : acc.1 (osPathJoin dir name) with
  | some c =>
    refine ⟨c, ?_⟩
    unfold initStep
    rw [hd]
    exact hd
  | none =>
    refine ⟨tmpl name, ?_⟩
    unfold initStep
    rw [hd]
    show fsWrite acc.1 (osPathJoin dir name) (tmpl name) (osPathJoin dir name)
      = some (tmpl name)
    unfold fsWrite
    rw [if_pos rfl]

theorem initStep_skip (tmpl : String → String) (dir : String)
    (acc : FS × List String) (name : String) (c : String)
    (h : acc.1 (osPathJoin dir name) = some c) :
    initStep tmpl dir acc name =
      (acc.1, acc.2 ++ [osPathJoin dir name ++ " already exists, skipping"]) := by
  unfold initStep
  rw [h]

theorem join_template_ne (dir : String) :
    osPathJoin dir "resume.md" ≠ osPathJoin dir "resume.css" := by
  unfold osPathJoin
  have hmd : ("resume.md" : String).data.take 1 ≠ ['/'] := by decide
  have hcss : ("resume.css" : String).data.take 1 ≠ ['/'] := by decide
  rw [if_neg hmd, if_neg hcss]
  by_cases hdir : dir = "" ∨ dir.data.getLast? = some '/'
  · rw [if_pos hdir, if_pos hdir]
    intro h
    have := congrArg String.data h
    simp only [String.data_append] at this
    have := List.append_cancel_left this
    have : ("resume.md" : String) = "resume.css" := congrArg String.mk this
    exact absurd this (by decide)
  · rw [if_neg hdir, if_neg hdir]
    intro h
    have := congrArg String.data h
    simp only [String.data_append] at this
    rw [List.append_assoc, List.append_assoc] at this
    have := List.append_cancel_left this
    have := List.append_cancel_left this
    have : ("resume.md" : String) = "resume.css" := congrArg String.mk this
    exact absurd this (by decide)

theorem initResume_unfold (tmpl : String → String) (dir : String) (fs : FS) :
    initResume tmpl dir fs =
      initStep tmpl dir (initStep tmpl dir (fs, []) "resume.md")
        "resume.css" := rfl

theorem initResume_both_exist (tmpl : String → String) (dir : String)
    (fs : FS) :
    (∃ c, (initResume tmpl dir fs).1 (osPathJoin dir "resume.md") = some c) ∧
    (∃ c, (initResume tmpl dir fs).1 (osPathJoin dir "resume.css") = some c) := by
  rw [initResume_unfold]
  constructor
  · obtain ⟨c, hc⟩ := initStep_makes_exist tmpl dir (fs, []) "resume.md"
    exact ⟨c, initStep_preserves tmpl dir _ "resume.css" _ c hc⟩
  · exact initStep_makes_exist tmpl dir _ "resume.css"

/-- C7: Running `init_resume` twice on the same directory is idempotent with
respect to file contents: the first run never overwrites an existing file,
the second run's filesystem equals the first run's at every path, and on the
second run both template files are skipped with a warning (two warnings are
logged). -/
theorem init_idempotent (tmpl : String → String) (dir : String) (fs : FS) :
    (∀ p c, fs p = some c → (initResume tmpl dir fs).1 p = some c) ∧
    (∀ p, (initResume tmpl dir (initResume tmpl dir fs).1).1 p =
      (initResume tmpl dir fs).1 p) ∧
    (initResume tmpl dir (initResume tmpl dir fs).1).2.length = 2 := by
  obtain ⟨⟨c1, hc1⟩, ⟨c2, hc2⟩⟩ := initResume_both_exist tmpl dir fs
  have hrun2 : initResume tmpl dir (initResume tmpl dir fs).1 =
      ((initResume tmpl dir fs).1,
        [osPathJoin dir "resume.md" ++ " already exists, skipping",
         osPathJoin dir "resume.css" ++ " already exists, skipping"]) := by
    rw [initResume_unfold tmpl dir (initResume tmpl dir fs).1]
    rw [initStep_skip tmpl dir ((initResume tmpl dir fs).1, ([] : List String))
      "resume.md" c1 hc1]
    rw [initStep_skip tmpl dir ((initResume tmpl dir fs).1,
      [] ++ [osPathJoin dir "resume.md" ++ " already exists, skipping"])
      "resume.css" c2 hc2]
    simp
  refine ⟨?_, ?_, ?_⟩
  · intro p c h
    rw [initResume_unfold]
    exact initStep_preserves tmpl dir _ "resume.css" p c
      (initStep_preserves tmpl dir (fs, []) "resume.md" p c h)
  · intro p
    rw [hrun2]
  · rw [hrun2]
    rfl

theorem init_idempotent_witness :
    (initResume (fun n => n ++ "!") "d"
      (fun p => if p = "keep" then some "v" else none)).1 "keep" = some "v" ∧
    (initResume (fun n => n ++ "!") "d"
      (initResume (fun n => n ++ "!") "d"
        (fun p => if p = "keep" then some "v" else none)).1).1 "d/resume.md" =
      (initResume (fun n => n ++ "!") "d"
        (fun p => if p = "keep" then some "v" else none)).1 "d/resume.md" ∧
    (initResume (fun n => n ++ "!") "d"
      (initResume (fun n => n ++ "!") "d"
        (fun p => if p = "keep" then some "v" else none)).1).2.length = 2 := by
  have h := init_idempotent (fun n => n ++ "!") "d"
    (fun p => if p = "keep" then some "v" else none)
  exact ⟨h.1 "keep" "v" (by simp), h.2.1 "d/resume.md", h.2.2⟩

/-
Command-line front end `main` (source lines 303-379).  The argparse
configuration is: global flags `-q` or `--quiet` and `--debug`; subcommand `init`
with no arguments (source lines 313-316); subcommand `build` with one
optional positional `file` defaulting to "resume.md" and the options
`--no-html`, `--no-pdf`, `--chrome-path PATH`, `--weasy` (source lines
319-347).  `parseArgs` embeds argparse's behaviour on exactly this
configuration: global flags precede the subcommand, unknown tokens are
rejected.
-/

/-- A parsed subcommand. -/
inductive Cmd where
  | init : Cmd
  | build : String → Bool → Bool → Option String → Bool → Cmd
deriving DecidableEq

/-- The parsed argument namespace. -/
structure Args where
  quiet : Bool
  debug : Bool
  command : Option Cmd
deriving DecidableEq

/-- Join tokens with single spaces (for argparse error messages). -/
def joinSpace : List String → String
  | [] => ""
  | [x] => x
  | x :: xs => x ++ " " ++ joinSpace xs

/-- The `build` subparser (source lines 319-347): an optional positional
`file` (default "resume.md", source lines 323-328) and the four options;
a second positional or an unknown option is rejected. -/
def parseBuildArgs : List String → Option String → Bool → Bool →
    Option String → Bool → Except String Cmd
  | [], f, nh, np, cp, w =>
    Except.ok (Cmd.build (f.getD "resume.md") nh np cp w)
  | "--no-html" :: rest, f, _, np, cp, w => parseBuildArgs rest f true np cp w
  | "--no-pdf" :: rest, f, nh, _, cp, w => parseBuildArgs rest f nh true cp w
  | "--weasy" :: rest, f, nh, np, cp, _ => parseBuildArgs rest f nh np cp true
  | "--chrome-path" :: v :: rest, f, nh, np, _, w =>
    parseBuildArgs rest f nh np (some v) w
  | ["--chrome-path"], _, _, _, _, _ =>
    Except.error "argument --chrome-path: expected one argument"
  | tok :: rest, f, nh, np, cp, w =>
    if tok.data.head? = some '-' then
      Except.error ("unrecognized arguments: " ++ tok)
    else
      match f with
      | none => parseBuildArgs rest (some tok) nh np cp w
      | some _ => Except.error ("unrecognized arguments: " ++ tok)

/-- The main parser (source lines 304-349): global flags, then the
subcommand; `init` accepts no further arguments; an absent subcommand
leaves `command` empty (main then prints help, source lines 377-378). -/
def parseMainArgs : List String → Bool → Bool → Except String Args
  | [], q, d => Except.ok (Args.mk q d none)
  | "-q" :: rest, _, d => parseMainArgs rest true d
  | "--quiet" :: rest, _, d => parseMainArgs rest true d
  | "--debug" :: rest, q, _ => parseMainArgs rest q true
  | "init" :: rest, q, d =>
    if rest.isEmpty then Except.ok (Args.mk q d (some Cmd.init))
    else Except.error ("unrecognized arguments: " ++ joinSpace rest)
  | "build" :: rest, q, d =>
    (parseBuildArgs rest none false false none false).map
      (fun c => Args.mk q d (some c))
  | tok :: _, _, _ => Except.error ("invalid choice: " ++ tok)

/-- Embedding of `parser.parse_args()` on the parser built by `main`
(source line 349). -/
def parseArgs (argv : List String) : Except String Args :=
  parseMainArgs argv false false

/-- The `init` branch of `main` (source lines 358-359): `init_resume()` is
called with its default directory `"."`. -/
def runInit (tmpl : String → String) (fs : FS) : FS × List String :=
  initResume tmpl "." fs

theorem initResume_writes (tmpl : String → String) (dir : String) (fs : FS)
    (h1 : fs (osPathJoin dir "resume.md") = none)
    (h2 : fs (osPathJoin dir "resume.css") = none) :
    (initResume tmpl dir fs).1 (osPathJoin dir "resume.md") =
      some (tmpl "resume.md") ∧
    (initResume tmpl dir fs).1 (osPathJoin dir "resume.css") =
      some (tmpl "resume.css") := by
  have hne := join_template_ne dir
  have e1 : initStep tmpl dir (fs, ([] : List String)) "resume.md" =
      (fsWrite fs (osPathJoin dir "resume.md") (tmpl "resume.md"), []) := by
    unfold initStep
    dsimp only
    rw [h1]
  have h2' : fsWrite fs (osPathJoin dir "resume.md") (tmpl "resume.md")
      (osPathJoin dir "resume.css") = none := by
    unfold fsWrite
    rw [if_neg (fun h => hne h.symm)]
    exact h2
  have e2 : initStep tmpl dir
      (fsWrite fs (osPathJoin dir "resume.md") (tmpl "resume.md"),
        ([] : List String)) "resume.css" =
      (fsWrite (fsWrite fs (osPathJoin dir "resume.md") (tmpl "resume.md"))
        (osPathJoin dir "resume.css") (tmpl "resume.css"), []) := by
    unfold initStep
    dsimp only
    rw [h2']
  rw [initResume_unfold, e1, e2]
  constructor
  · show fsWrite _ (osPathJoin dir "resume.css") (tmpl "resume.css")
      (osPathJoin dir "resume.md") = _
    unfold fsWrite
    rw [if_neg hne, if_pos rfl]
  · show fsWrite _ (osPathJoin dir "resume.css") (tmpl "resume.css")
      (osPathJoin dir "resume.css") = _
    unfold fsWrite
    rw [if_pos rfl]

/-- C8 counterexample: the CLI does not accept `init [directory]` — a
directory operand after `init` is rejected as an unrecognized argument. -/
theorem init_cli_directory_cex :
    parseArgs ["init", "somedir"] =
      Except.error "unrecognized arguments: somedir" := rfl

/-- C8 (amended): the CLI accepts `init` with no directory argument, and on
`init` the two bundled template files resume.md and resume.css are written
into the current directory `"."` (main calls `init_resume()` with its
default).  A directory operand on the command line is rejected. -/
theorem init_cli (tmpl : String → String) (fs : FS)
    (h1 : fs (osPathJoin "." "resume.md") = none)
    (h2 : fs (osPathJoin "." "resume.css") = none) :
    parseArgs ["init"] = Except.ok (Args.mk false false (some Cmd.init)) ∧
    (runInit tmpl fs).1 (osPathJoin "." "resume.md") =
      some (tmpl "resume.md") ∧
    (runInit tmpl fs).1 (osPathJoin "." "resume.css") =
      some (tmpl "resume.css") := by
  obtain ⟨ha, hb⟩ := initResume_writes tmpl "." fs h1 h2
  exact ⟨rfl, ha, hb⟩

theorem init_cli_witness :
    parseArgs ["init"] = Except.ok (Args.mk false false (some Cmd.init)) ∧
    (runInit (fun n => "tmpl " ++ n) (fun _ => none)).1 "./resume.md" =
      some "tmpl resume.md" := by
  have h := init_cli (fun n => "tmpl " ++ n) (fun _ => none) rfl rfl
  exact ⟨h.1, h.2.1⟩

/-
The `build` branch of `main` (source lines 360-376).  `os.path.abspath`
depends on the process working directory and is passed as an ambient
function; `os.path.splitext` is embedded below following CPython's
`posixpath` algorithm.
-/

/-- Index of the last occurrence of `c` in `l`, or `-1` (CPython
`str.rfind`). -/
def rfindCharFrom (c : Char) : List Char → Nat → Int → Int
  | [], _, best => best
  | x :: rest, i, best =>
    rfindCharFrom c rest (i + 1) (if x = c then Int.ofNat i else best)

/-- `l.rfind(c)` as used by `posixpath.splitext`. -/
def rfindChar (l : List Char) (c : Char) : Int := rfindCharFrom c l 0 (-1)

/-- Embedding of `os.path.splitext` on POSIX paths (CPython
`genericpath._splitext` with `sep="/"`, `extsep="."`): split at the last
dot after the last slash, unless every basename character before that dot
is itself a dot (leading dots do not start an extension). -/
def pySplitextData (l : List Char) : List Char × List Char :=
  if rfindChar l '.' > rfindChar l '/' then
    if (List.range l.length).any (fun j =>
        decide (rfindChar l '/' < (j : Int)) &&
        decide ((j : Int) < rfindChar l '.') &&
        !(l.getD j '.' == '.')) then
      (l.take (rfindChar l '.').toNat, l.drop (rfindChar l '.').toNat)
    else (l, [])
  else (l, [])

/-- `os.path.splitext` on `String` (source line 361). -/
def pySplitext (s : String) : String × String :=
  (String.mk (pySplitextData s.data).1, String.mk (pySplitextData s.data).2)

/-- Which PDF renderer the `build` branch selects (source lines 372-376):
`write_pdf_weasy` when `--weasy` is set, otherwise `write_pdf` with the
optional `--chrome-path` override. -/
inductive PdfBackend where
  | weasy : PdfBackend
  | browser : Option String → PdfBackend
deriving DecidableEq

/-- Observable outputs of the `build` branch: the compiled HTML document
(always produced), the `.html` file written unless `--no-html`, and the
`.pdf` job dispatched unless `--no-pdf`. -/
structure BuildTrace where
  htmlDoc : String
  htmlWritten : Option String
  pdfWritten : Option (String × PdfBackend)

/-- Embedding of the `build` branch of `main` (source lines 360-376):
compute the prefix from the absolute input path minus its extension, read
the input, always compile it with `make_html` (reading `<prefix>.css`),
then write the `.html` and dispatch the `.pdf` according to the flags. -/
def runBuild (abspath : String → String) (render : List Char → List Char)
    (cssAt : String → Option (List Char)) (md : String) (file : String)
    (noHtml noPdf : Bool) (chromePath : Option String) (weasy : Bool) :
    Except (List Char) BuildTrace :=
  match makeHtml render md.data
      (cssAt ((pySplitext (abspath file)).1 ++ ".css")) with
  | Except.error e => Except.error e
  | Except.ok (html, _) =>
    Except.ok (BuildTrace.mk (String.mk html)
      (if noHtml then none
       else some ((pySplitext (abspath file)).1 ++ ".html"))
      (if noPdf then none
       else some ((pySplitext (abspath file)).1 ++ ".pdf",
         if weasy then PdfBackend.weasy else PdfBackend.browser chromePath)))

/-- C9: For every build invocation whose input has a title line: the output
prefix is the absolute input path with its extension stripped; the Markdown
is always compiled to HTML; the `.html` file at that prefix is written
exactly unless `--no-html`; the `.pdf` at that prefix is dispatched exactly
unless `--no-pdf`, to the library renderer when `--weasy` is set and
otherwise to the browser renderer with the `--chrome-path` override; and
parsing `build` with no operand defaults the input file to resume.md. -/
theorem build_behavior (abspath : String → String)
    (render : List Char → List Char) (cssAt : String → Option (List Char))
    (md file : String) (noHtml noPdf : Bool) (chromePath : Option String)
    (weasy : Bool) (pfx : String) (t : List Char)
    (hpfx : pfx = (pySplitext (abspath file)).1)
    (h : title md.data = Except.ok t) :
    (∃ tr, runBuild abspath render cssAt md file noHtml noPdf chromePath weasy
        = Except.ok tr ∧
      tr.htmlDoc = String.mk
        (preambleFmt t (cssRead (cssAt (pfx ++ ".css"))).1 ++
          render md.data ++ postamble) ∧
      tr.htmlWritten = (if noHtml then none else some (pfx ++ ".html")) ∧
      tr.pdfWritten = (if noPdf then none
        else some (pfx ++ ".pdf",
          if weasy then PdfBackend.weasy
          else PdfBackend.browser chromePath))) ∧
    (∀ a, parseArgs ["build"] = Except.ok a →
      a.command = some (Cmd.build "resume.md" false false none false)) := by
  subst hpfx
  constructor
  · unfold runBuild
    simp only [makeHtml, h]
    exact ⟨_, rfl, rfl, rfl, rfl⟩
  · intro a ha
    have : parseArgs ["build"] =
        Except.ok (Args.mk false false
          (some (Cmd.build "resume.md" false false none false))) := rfl
    rw [this] at ha
    cases ha
    rfl

theorem build_behavior_witness :
    (∃ tr, runBuild (fun s => "/cwd/" ++ s) (fun l => l) (fun _ => none)
        "# T" "resume.md" false false none false = Except.ok tr ∧
      tr.htmlWritten = some "/cwd/resume.html" ∧
      tr.pdfWritten = some ("/cwd/resume.pdf", PdfBackend.browser none)) := by
  have h := build_behavior (fun s => "/cwd/" ++ s) (fun l => l)
    (fun _ => none) "# T" "resume.md" false false none false
    "/cwd/resume" "T".data (by decide) (by decide)
  obtain ⟨⟨tr, htr, -, hh, hp⟩, -⟩ := h
  refine ⟨tr, htr, ?_, ?_⟩
  · rw [hh]
    decide
  · rw [hp]
    decide

end ResumeMd
